import Mathlib

/-!
Verification development for the pi-peline repository: a shallow embedding of
the core data model (steps, states, patterns), the step executor's verdict
logic, the execution engine's retry accounting and routing resets, the
scheduler, the pipeline progress computation, the streaming-event data model
with its deserializer semantics, and the subprocess driver's accumulation loop.
Each definition is translated from the Rust source file named in its doc
comment.
-/

namespace PiPipeline

/-! ## Core state model (src/core/state.rs) -/

/-- Overall pipeline execution status, from `ExecutionStatus` in
src/core/state.rs. -/
inductive ExecutionStatus
  | Pending
  | Running
  | Completed
  | Failed
  | Cancelled
  | Paused
deriving Repr, DecidableEq

/-- State of a single step, from `StepState` in src/core/state.rs.
Timestamps (`DateTime<Utc>`) are modelled as `Nat` tick values; their
actual values never influence control flow in the embedded code. -/
inductive StepState
  | pending
  | retrying (attempt : Nat)
  | running (started_at : Nat) (attempt : Nat)
  | completed (output : String) (attempts : Nat) (started_at : Nat) (completed_at : Nat)
  | failed (error : String) (attempts : Nat) (last_started_at : Nat) (failed_at : Nat)
  | skipped (reason : String)
  | blocked (reason : String) (blocked_at : Nat)
deriving Repr, DecidableEq

/-- Translation of `StepState::is_terminal` (src/core/state.rs): Completed,
Failed and Skipped are terminal. -/
def StepState.is_terminal : StepState → Bool
  | .completed .. => true
  | .failed .. => true
  | .skipped .. => true
  | _ => false

/-- Helper: the state is `Pending` (the `matches!(.., StepState::Pending)`
tests scattered through the scheduler and engine). -/
def StepState.isPending : StepState → Bool
  | .pending => true
  | _ => false

/-- Helper: the state is `Retrying { .. }`. -/
def StepState.isRetrying : StepState → Bool
  | .retrying _ => true
  | _ => false

/-- Helper: the state is `Running { .. }`. -/
def StepState.isRunning : StepState → Bool
  | .running .. => true
  | _ => false

/-- Helper: the state is `Completed { .. }` (the filter used when the
scheduler builds its `completed` set). -/
def StepState.isCompleted : StepState → Bool
  | .completed .. => true
  | _ => false

/-- Helper: the state is `Completed { .. }` or `Failed { .. }` (the filter
used by `Pipeline::ready_steps` and by the routing-reset `matches!`). -/
def StepState.isCompletedOrFailed : StepState → Bool
  | .completed .. => true
  | .failed .. => true
  | _ => false

/-! ## Patterns and conditions (src/core/step.rs, src/core/condition.rs) -/

/-- Pattern for matching agent output, from `ConditionPattern` in
src/core/step.rs. The `Regex` case carries a compiled matcher from the
external `regex` crate; it is embedded as its matching function. -/
inductive ConditionPattern
  | Simple (pattern : String)
  | Regex (is_match : String → Bool)

/-- Substring containment, the semantics of Rust's `str::contains(&str)`:
the pattern occurs as a contiguous substring of the text. -/
def containsSubstring (text pattern : String) : Bool :=
  decide (pattern.toList <:+: text.toList)

/-- Translation of `ConditionPattern::matches` (src/core/step.rs): a
`Simple` pattern matches iff the text contains it as a substring; a `Regex`
pattern matches iff the compiled expression finds a hit. -/
def ConditionPattern.matches : ConditionPattern → String → Bool
  | .Simple pattern, text => containsSubstring text pattern
  | .Regex f, text => f text

/-- Termination condition, from `TerminationCondition` in
src/core/condition.rs. -/
structure TerminationCondition where
  success_pattern : ConditionPattern
  on_success : Option String
  on_failure : Option String

/-- Continuation action, from `ContinuationAction` in src/core/config.rs. -/
inductive ContinuationAction
  | Retry
  | Route
deriving Repr, DecidableEq

/-- Continuation condition, from `ContinuationCondition` in
src/core/step.rs. -/
structure ContinuationCondition where
  pattern : ConditionPattern
  action : ContinuationAction
  target : Option String

/-! ## Step (src/core/step.rs) -/

/-- A single pipeline step, from `Step` in src/core/step.rs. -/
structure Step where
  id : String
  prompt_template : String
  dependencies : List String
  termination : Option TerminationCondition
  continuation : Option ContinuationCondition
  max_retries : Nat
  timeout_secs : Nat
  state : StepState

/-- Translation of `Step::dependencies_met` (src/core/step.rs): every
dependency id is in the supplied completed-or-failed set (the `HashSet` is
embedded as a list of ids with membership lookup). -/
def Step.dependencies_met (step : Step) (completed_or_failed_steps : List String) : Bool :=
  step.dependencies.all (fun dep => completed_or_failed_steps.contains dep)

/-- Modelled from the spec: `Step::dependencies_satisfied` is called by the
scheduler (src/execution/scheduler.rs lines 71 and 96) but is not defined
anywhere under src/. The spec describes dependency satisfaction as every
dependency being in the satisfied set supplied by the caller, mirroring the
sibling `Step::dependencies_met` that is in src/. -/
def Step.dependencies_satisfied (step : Step) (completed : List String) : Bool :=
  step.dependencies.all (fun dep => completed.contains dep)

/-- Translation of `Step::is_success` (src/core/step.rs): match the
configured success pattern, or fall back to the default check for
"✓ DONE" / "DONE" when no termination condition is configured. -/
def Step.is_success (step : Step) (output : String) : Bool :=
  match step.termination with
  | some termination => termination.success_pattern.matches output
  | none => containsSubstring output "✓ DONE" || containsSubstring output "DONE"

/-- Translation of `Step::needs_continuation` (src/core/step.rs): match the
configured continuation pattern; false when none is configured. -/
def Step.needs_continuation (step : Step) (output : String) : Bool :=
  match step.continuation with
  | some continuation => continuation.pattern.matches output
  | none => false

/-- Translation of `Step::next_step_on_success` (src/core/step.rs). -/
def Step.next_step_on_success (step : Step) : Option String :=
  step.termination.bind (fun t => t.on_success)

/-- Translation of `Step::next_step_on_failure` (src/core/step.rs). -/
def Step.next_step_on_failure (step : Step) : Option String :=
  step.termination.bind (fun t => t.on_failure)

/-- Translation of `Step::get_continuation_action` (src/core/step.rs). -/
def Step.get_continuation_action (step : Step) : Option (ContinuationAction × Option String) :=
  step.continuation.map (fun c => (c.action, c.target))

/-! ## Step executor (src/execution/executor.rs) -/

/-- Action to take for continuation, from `ContinueAction` in
src/execution/executor.rs (`Route` carries the resolved target id). -/
inductive ContinueAction
  | Retry
  | Route (target : String)
deriving Repr, DecidableEq

/-- Result of executing a step, from `ExecutionResult` in
src/execution/executor.rs. The `Interrupted` variant belongs to the
cooperative-cancellation path, which is not part of the embedded
classification logic. -/
inductive ExecutionResult
  | Success (output : String) (next_step : Option String)
  | Continue (action : ContinueAction) (target : Option String)
  | FailedWithRoute (error : String) (next_step : String)
  | Failed (error : String)
deriving Repr, DecidableEq

/-- The tail of `StepExecutor::execute` (src/execution/executor.rs lines
120-154), reached when the continuation check did not return: check
`is_success`, else treat the reply as unmatched (route to `on_failure` when
set, otherwise retry). -/
def classifyTail (step : Step) (content : String) : ExecutionResult :=
  if step.is_success content then
    .Success content step.next_step_on_success
  else
    match step.next_step_on_failure with
    | some target => .FailedWithRoute "No termination pattern found" target
    | none => .Continue .Retry none

/-- Translation of the reply-classification logic of `StepExecutor::execute`
(src/execution/executor.rs lines 97-154), the code run after the agent
returned reply `content`: the continuation check comes first; when it does
not apply, control falls through to `classifyTail`. `none` models the
`target.unwrap()` panic on a Route continuation without a target. -/
def StepExecutor.classify (step : Step) (content : String) : Option ExecutionResult :=
  if step.needs_continuation content then
    match step.get_continuation_action with
    | some (.Retry, _) => some (.Continue .Retry none)
    | some (.Route, some target_id) => some (.Continue (.Route target_id) (some target_id))
    | some (.Route, none) => none
    | none => some (classifyTail step content)
  else
    some (classifyTail step content)

/-! ## Pipeline (src/core/pipeline.rs) -/

/-- Pipeline state counters, from `PipelineState` in src/core/state.rs
(the execution id and timestamps are omitted: they never influence the
embedded control flow). -/
structure PipelineState where
  status : ExecutionStatus
  total_steps : Nat
  completed_steps : Nat
  failed_steps : Nat
  running_steps : Nat
deriving Repr, DecidableEq

/-- Translation of `PipelineState::progress` (src/core/state.rs lines
143-149): return 0.0 when there are no steps, else the ratio of finished
(completed plus failed) steps over the total. The `f64` arithmetic is
modelled over `Rat`; the guard and the ratio structure are exact. -/
def PipelineState.progress (s : PipelineState) : Rat :=
  if s.total_steps = 0 then 0
  else ((s.completed_steps + s.failed_steps : Nat) : Rat) / ((s.total_steps : Nat) : Rat)

/-- A pipeline, from `Pipeline` in src/core/pipeline.rs. The `HashMap` of
steps is embedded as the list of its entries (ids unique by the config
validator); `execution_order` is the precomputed topological order. -/
structure Pipeline where
  name : String
  steps : List Step
  state : PipelineState
  execution_order : List String

/-- Translation of `Pipeline::step` (src/core/pipeline.rs): lookup by id. -/
def Pipeline.step (p : Pipeline) (id : String) : Option Step :=
  p.steps.find? (fun s => s.id = id)

/-- The `completed` id set built inside `ExecutionScheduler::next_sequential`
and `collect_ready_from_queue` (src/execution/scheduler.rs lines 59-64 and
89-94): ids of steps whose state is `Completed { .. }` only. -/
def Pipeline.completedIds (p : Pipeline) : List String :=
  (p.steps.filter (fun s => s.state.isCompleted)).map (fun s => s.id)

/-- The `completed_or_failed` id set built inside `Pipeline::ready_steps`
(src/core/pipeline.rs lines 70-77). -/
def Pipeline.completedOrFailedIds (p : Pipeline) : List String :=
  (p.steps.filter (fun s => s.state.isCompletedOrFailed)).map (fun s => s.id)

/-- Translation of `Pipeline::ready_steps` (src/core/pipeline.rs): steps in
`Pending` or `Retrying` whose dependencies are met against the
completed-or-failed set. -/
def Pipeline.ready_steps (p : Pipeline) : List Step :=
  p.steps.filter (fun s =>
    (s.state.isPending || s.state.isRetrying)
      && s.dependencies_met p.completedOrFailedIds)

/-- Translation of `Pipeline::running_steps` (src/core/pipeline.rs). -/
def Pipeline.running_steps (p : Pipeline) : List Step :=
  p.steps.filter (fun s => s.state.isRunning)

/-! ## Scheduler (src/execution/scheduler.rs) -/

/-- Scheduling strategy, from `SchedulingStrategy` in
src/execution/scheduler.rs. -/
inductive SchedulingStrategy
  | Sequential
  | Parallel
  | LimitedParallel (max : Nat)
deriving Repr, DecidableEq

/-- The scheduler, from `ExecutionScheduler` in src/execution/scheduler.rs:
a strategy and the explicit FIFO queue (the `VecDeque` is embedded as a
list, front first). -/
structure ExecutionScheduler where
  strategy : SchedulingStrategy
  explicit_queue : List String

/-- Translation of `ExecutionScheduler::new`. -/
def ExecutionScheduler.new (strategy : SchedulingStrategy) : ExecutionScheduler :=
  { strategy := strategy, explicit_queue := [] }

/-- Translation of `ExecutionScheduler::enqueue` (src/execution/scheduler.rs
lines 39-42): `push_back` on the explicit queue. -/
def ExecutionScheduler.enqueue (s : ExecutionScheduler) (step_id : String) : ExecutionScheduler :=
  { s with explicit_queue := s.explicit_queue ++ [step_id] }

/-- The loop body of `ExecutionScheduler::collect_ready_from_queue`
(src/execution/scheduler.rs lines 66-81): walk the queue front to back,
keep ids whose step is `Pending` with dependencies satisfied against the
completed set, and stop after the first hit under the Sequential strategy
(the `break`). -/
def collectReadyGo (p : Pipeline) (sequential : Bool) : List String → List String
  | [] => []
  | step_id :: rest =>
    match p.step step_id with
    | some step =>
      if step.state.isPending && step.dependencies_satisfied p.completedIds then
        if sequential then [step_id]
        else step_id :: collectReadyGo p sequential rest
      else collectReadyGo p sequential rest
    | none => collectReadyGo p sequential rest

/-- Translation of `ExecutionScheduler::collect_ready_from_queue`
(src/execution/scheduler.rs lines 58-82). -/
def ExecutionScheduler.collect_ready_from_queue (s : ExecutionScheduler) (p : Pipeline) :
    List String :=
  collectReadyGo p (s.strategy = .Sequential) s.explicit_queue

/-- The loop body of `ExecutionScheduler::next_sequential`
(src/execution/scheduler.rs lines 84-104): walk the precomputed execution
order and return the first `Pending` step whose dependencies are satisfied
against the completed set. -/
def nextSequentialGo (p : Pipeline) : List String → List String
  | [] => []
  | step_id :: rest =>
    match p.step step_id with
    | some step =>
      if step.state.isPending then
        if step.dependencies_satisfied p.completedIds then [step_id]
        else nextSequentialGo p rest
      else nextSequentialGo p rest
    | none => nextSequentialGo p rest

/-- Translation of `ExecutionScheduler::next_sequential`
(src/execution/scheduler.rs lines 84-104). -/
def ExecutionScheduler.next_sequential (p : Pipeline) : List String :=
  nextSequentialGo p p.execution_order

/-- Translation of `ExecutionScheduler::next_parallel`
(src/execution/scheduler.rs lines 106-108). -/
def ExecutionScheduler.next_parallel (p : Pipeline) : List String :=
  p.ready_steps.map (fun s => s.id)

/-- Translation of `ExecutionScheduler::next_limited_parallel`
(src/execution/scheduler.rs lines 110-124). -/
def ExecutionScheduler.next_limited_parallel (p : Pipeline) (max : Nat) : List String :=
  let running_count := p.running_steps.length
  let remaining := max - running_count
  if remaining = 0 then []
  else (p.ready_steps.take remaining).map (fun s => s.id)

/-- Translation of `ExecutionScheduler::next_steps`
(src/execution/scheduler.rs lines 44-56): consult the explicit queue first;
only when it is empty fall back to the strategy. -/
def ExecutionScheduler.next_steps (s : ExecutionScheduler) (p : Pipeline) : List String :=
  if s.explicit_queue.isEmpty then
    match s.strategy with
    | .Sequential => ExecutionScheduler.next_sequential p
    | .Parallel => ExecutionScheduler.next_parallel p
    | .LimitedParallel max => ExecutionScheduler.next_limited_parallel p max
  else
    s.collect_ready_from_queue p

/-! ## Engine (src/execution/engine.rs) -/

/-- Outcome of the attempt-derivation and retry-limit check at the top of
`ExecutionEngine::execute_step` (src/execution/engine.rs lines 239-261). -/
inductive ScheduleDecision
  | run (attempt : Nat)
  | failExceeded (error : String) (attempts : Nat)
  | invalidState
deriving Repr, DecidableEq

/-- Translation of src/execution/engine.rs lines 239-261: derive the
attempt number from the step state (`Pending` gives 1, `Retrying` keeps its
attempt, `Running` re-entry increments), compute
`retry_count = attempt - 1` for retries and 0 otherwise, and refuse to run
the step with the error `Exceeded retry limit of {max_retries}` and
`attempt - 1` recorded attempts when `retry_count > max_retries`. -/
def ExecutionEngine.retry_gate (state : StepState) (max_retries : Nat) : ScheduleDecision :=
  let gate : Nat → Bool → ScheduleDecision := fun attempt is_retry =>
    let retry_count := if is_retry then attempt - 1 else 0
    if retry_count > max_retries then
      .failExceeded ("Exceeded retry limit of " ++ toString max_retries) (attempt - 1)
    else
      .run attempt
  match state with
  | .pending => gate 1 false
  | .retrying attempt => gate attempt true
  | .running _ attempt => gate (attempt + 1) true
  | _ => .invalidState

/-- Translation of the target-reset block on the `Success { next }` path of
`ExecutionEngine::execute_step` (src/execution/engine.rs lines 296-315):
compute `attempts + 1` for a Completed or Failed target (1 otherwise), then
set the target to `Retrying` only when it was Completed or Failed. -/
def ExecutionEngine.resetTargetOnSuccessRoute (st : StepState) : StepState :=
  let next_attempt :=
    match st with
    | .completed _ attempts _ _ => attempts + 1
    | .failed _ attempts _ _ => attempts + 1
    | .pending | .retrying _ => 1
    | _ => 1
  match st with
  | .completed .. => .retrying next_attempt
  | .failed .. => .retrying next_attempt
  | other => other

/-- Translation of the target-reset block on the `FailedWithRoute` path of
`ExecutionEngine::execute_step` (src/execution/engine.rs lines 352-371),
textually identical to the `Success { next }` block. -/
def ExecutionEngine.resetTargetOnFailureRoute (st : StepState) : StepState :=
  let target_attempt :=
    match st with
    | .completed _ attempts _ _ => attempts + 1
    | .failed _ attempts _ _ => attempts + 1
    | .pending | .retrying _ => 1
    | _ => 1
  match st with
  | .completed .. => .retrying target_attempt
  | .failed .. => .retrying target_attempt
  | other => other

/-- Translation of the target-reset block on the `Continue(Route(target))`
path of `ExecutionEngine::handle_continuation` (src/execution/engine.rs
lines 451-467): take the target's prior attempt count as is for a Completed
or Failed target (the source comments "don't increment"), 1 otherwise, and
set the target to `Retrying` unconditionally. -/
def ExecutionEngine.resetTargetOnContinueRoute (st : StepState) : StepState :=
  let target_attempt :=
    match st with
    | .completed _ attempts _ _ => attempts
    | .failed _ attempts _ _ => attempts
    | .pending | .retrying _ => 1
    | _ => 1
  .retrying target_attempt

/-- Translation of the `Continue(Retry)` path of
`ExecutionEngine::handle_continuation` (src/execution/engine.rs lines
400-422): read the current attempt from a Running or Retrying state (0
otherwise) and set the step to `Retrying` with the attempt incremented. -/
def ExecutionEngine.retryContinuationState (st : StepState) : StepState :=
  let current_attempt :=
    match st with
    | .running _ attempt => attempt
    | .retrying attempt => attempt
    | _ => 0
  .retrying (current_attempt + 1)

/-! ## JSON values and the event deserializer (src/agent/pi_events.rs)

The agent's line-delimited JSON objects are modelled by a `Json` value
type; the serde-derived deserializers declared by the attributes in
src/agent/pi_events.rs are embedded as explicit parsing functions over it,
following serde's documented semantics for internally tagged enums:
`#[serde(tag = "type", rename_all = "snake_case")]` dispatches on the
string under the key "type" using snake_case variant names;
`#[serde(rename_all = "camelCase")]` on a struct variant makes its fields
deserialize from camelCase keys only; unknown keys are ignored (no
`deny_unknown_fields`); a missing non-`Option` field is an error; a missing
or null `Option` field is `none`; `#[serde(other)]` absorbs unrecognised
tag values. -/

/-- JSON values. Numbers are embedded as integers: every numeric field of
the event schema is an unsigned machine integer. -/
inductive Json
  | null
  | bool (b : Bool)
  | num (n : Int)
  | str (s : String)
  | arr (elems : List Json)
  | obj (fields : List (String × Json))

/-- Message object, from `Message` in src/agent/pi_events.rs
(`content: Vec<Value>` keeps raw JSON values). -/
structure Message where
  role : String
  content : List Json

/-- Tool call object, from `ToolCall` in src/agent/pi_events.rs
(`tool_type` deserializes from the key "type"). -/
structure ToolCall where
  tool_type : String
  id : String
  name : String
  arguments : Json

/-- Nested assistant message event, from `AssistantMessageEvent` in
src/agent/pi_events.rs. The Rust field `partial` is a Lean keyword and is
embedded as `partialMsg`. -/
inductive AssistantMessageEvent
  | ThinkingStart (content_index : Nat) (partialMsg : Message)
  | ThinkingDelta (content_index : Nat) (delta : String)
  | ThinkingEnd (content_index : Nat) (content : Option String)
  | TextStart (content_index : Nat) (partialMsg : Message)
  | TextDelta (content_index : Nat) (delta : String)
  | TextEnd (content_index : Nat) (content : Option String)
  | ToolcallStart (content_index : Nat) (partialMsg : Message)
  | ToolcallDelta (content_index : Nat) (delta : String) (partialMsg : Message)
  | ToolcallEnd (content_index : Nat) (tool_call : ToolCall) (partialMsg : Message)
  | Other

/-- Top-level agent event, from `PiJsonEvent` in src/agent/pi_events.rs. -/
inductive PiJsonEvent
  | AgentStart
  | AgentEnd
  | TurnStart
  | TurnEnd (message : Option Message) (tool_results : List Json)
  | MessageStart
  | MessageEnd
  | MessageUpdate (assistant_message_event : Option AssistantMessageEvent)
      (message : Option Message)
  | Session (version : Nat) (id : String) (timestamp : String) (cwd : String)
  | ToolExecutionStart (tool_call_id : String) (tool_name : String) (args : Json)
  | ToolExecutionUpdate (tool_call_id : String) (tool_name : String)
      (args : Json) (partial_result : Json)
  | ToolExecutionEnd (tool_call_id : String) (tool_name : String)
      (result : Json) ( is_error : Bool)

/-- Lookup of a key in a JSON object's field list. -/
def getKey (fields : List (String × Json)) (key : String) : Option Json :=
  (fields.find? (fun kv => kv.1 = key)).map (fun kv => kv.2)

/-- Serde semantics of a required field: missing key is an error. -/
def reqField (fields : List (String × Json)) (key : String) : Except String Json :=
  match getKey fields key with
  | some j => .ok j
  | none => .error ("missing field " ++ key)

/-- Serde semantics of extracting a string value. -/
def jString : Json → Except String String
  | .str s => .ok s
  | _ => .error "invalid type: expected string"

/-- Serde semantics of extracting an unsigned integer value. -/
def jNat : Json → Except String Nat
  | .num n => if 0 ≤ n then .ok n.toNat else .error "invalid value: negative"
  | _ => .error "invalid type: expected number"

/-- Serde semantics of extracting a boolean value. -/
def jBool : Json → Except String Bool
  | .bool b => .ok b
  | _ => .error "invalid type: expected boolean"

/-- Serde semantics of extracting an array value. -/
def jArr : Json → Except String (List Json)
  | .arr elems => .ok elems
  | _ => .error "invalid type: expected array"

/-- Serde semantics of an `Option` field: missing key or a null value is
`none`; any other value goes through the element deserializer. -/
def optField {α : Type} (fields : List (String × Json)) (key : String)
    (conv : Json → Except String α) : Except String (Option α) :=
  match getKey fields key with
  | none => .ok none
  | some .null => .ok none
  | some j => (conv j).map some

/-- Deserializer for `Message` (src/agent/pi_events.rs): requires `role`
(string) and `content` (array of raw values). -/
def parseMessage : Json → Except String Message
  | .obj fields => do
    let role ← reqField fields "role" >>= jString
    let content ← reqField fields "content" >>= jArr
    return { role := role, content := content }
  | _ => .error "invalid type: expected message object"

/-- Deserializer for `ToolCall` (src/agent/pi_events.rs): `tool_type` is
renamed to the key "type"; the other keys are single words. -/
def parseToolCall : Json → Except String ToolCall
  | .obj fields => do
    let tool_type ← reqField fields "type" >>= jString
    let id ← reqField fields "id" >>= jString
    let name ← reqField fields "name" >>= jString
    let arguments ← reqField fields "arguments"
    return { tool_type := tool_type, id := id, name := name, arguments := arguments }
  | _ => .error "invalid type: expected tool call object"

/-- Deserializer for `AssistantMessageEvent` (src/agent/pi_events.rs):
internally tagged on "type" with snake_case variant names; every struct
variant is `rename_all = "camelCase"`, so multi-word fields deserialize
from their camelCase keys; the `#[serde(other)]` variant `Other` absorbs
every unrecognised tag value. -/
def parseAssistantMessageEvent : Json → Except String AssistantMessageEvent
  | .obj fields =>
    match getKey fields "type" with
    | some (.str t) =>
      if t = "thinking_start" then do
        let content_index ← reqField fields "contentIndex" >>= jNat
        let partialMsg ← reqField fields "partial" >>= parseMessage
        return .ThinkingStart content_index partialMsg
      else if t = "thinking_delta" then do
        let content_index ← reqField fields "contentIndex" >>= jNat
        let delta ← reqField fields "delta" >>= jString
        return .ThinkingDelta content_index delta
      else if t = "thinking_end" then do
        let content_index ← reqField fields "contentIndex" >>= jNat
        let content ← optField fields "content" jString
        return .ThinkingEnd content_index content
      else if t = "text_start" then do
        let content_index ← reqField fields "contentIndex" >>= jNat
        let partialMsg ← reqField fields "partial" >>= parseMessage
        return .TextStart content_index partialMsg
      else if t = "text_delta" then do
        let content_index ← reqField fields "contentIndex" >>= jNat
        let delta ← reqField fields "delta" >>= jString
        return .TextDelta content_index delta
      else if t = "text_end" then do
        let content_index ← reqField fields "contentIndex" >>= jNat
        let content ← optField fields "content" jString
        return .TextEnd content_index content
      else if t = "toolcall_start" then do
        let content_index ← reqField fields "contentIndex" >>= jNat
        let partialMsg ← reqField fields "partial" >>= parseMessage
        return .ToolcallStart content_index partialMsg
      else if t = "toolcall_delta" then do
        let content_index ← reqField fields "contentIndex" >>= jNat
        let delta ← reqField fields "delta" >>= jString
        let partialMsg ← reqField fields "partial" >>= parseMessage
        return .ToolcallDelta content_index delta partialMsg
      else if t = "toolcall_end" then do
        let content_index ← reqField fields "contentIndex" >>= jNat
        let tool_call ← reqField fields "toolCall" >>= parseToolCall
        let partialMsg ← reqField fields "partial" >>= parseMessage
        return .ToolcallEnd content_index tool_call partialMsg
      else
        return .Other
    | some _ => .error "invalid type: tag is not a string"
    | none => .error "missing field type"
  | _ => .error "invalid type: expected event object"

/-- Deserializer for `PiJsonEvent` (src/agent/pi_events.rs): internally
tagged on "type" with snake_case variant names; struct variants marked
`rename_all = "camelCase"` read multi-word fields from camelCase keys; the
nested event of `message_update` is read from the explicitly renamed key
"assistantMessageEvent". There is no `#[serde(other)]` variant, so an
unrecognised tag value is a deserialization error. -/
def parsePiJsonEvent : Json → Except String PiJsonEvent
  | .obj fields =>
    match getKey fields "type" with
    | some (.str t) =>
      if t = "agent_start" then return .AgentStart
      else if t = "agent_end" then return .AgentEnd
      else if t = "turn_start" then return .TurnStart
      else if t = "turn_end" then do
        let message ← optField fields "message" parseMessage
        let tool_results ← reqField fields "toolResults" >>= jArr
        return .TurnEnd message tool_results
      else if t = "message_start" then return .MessageStart
      else if t = "message_end" then return .MessageEnd
      else if t = "message_update" then do
        let assistant_message_event ←
          optField fields "assistantMessageEvent" parseAssistantMessageEvent
        let message ← optField fields "message" parseMessage
        return .MessageUpdate assistant_message_event message
      else if t = "session" then do
        let version ← reqField fields "version" >>= jNat
        let id ← reqField fields "id" >>= jString
        let timestamp ← reqField fields "timestamp" >>= jString
        let cwd ← reqField fields "cwd" >>= jString
        return .Session version id timestamp cwd
      else if t = "tool_execution_start" then do
        let tool_call_id ← reqField fields "toolCallId" >>= jString
        let tool_name ← reqField fields "toolName" >>= jString
        let args ← reqField fields "args"
        return .ToolExecutionStart tool_call_id tool_name args
      else if t = "tool_execution_update" then do
        let tool_call_id ← reqField fields "toolCallId" >>= jString
        let tool_name ← reqField fields "toolName" >>= jString
        let args ← reqField fields "args"
        let partial_result ← reqField fields "partialResult"
        return .ToolExecutionUpdate tool_call_id tool_name args partial_result
      else if t = "tool_execution_end" then do
        let tool_call_id ← reqField fields "toolCallId" >>= jString
        let tool_name ← reqField fields "toolName" >>= jString
        let result ← reqField fields "result"
        let is_error ← reqField fields "isError" >>= jBool
        return .ToolExecutionEnd tool_call_id tool_name result is_error
      else .error ("unknown variant " ++ t)
    | some _ => .error "invalid type: tag is not a string"
    | none => .error "missing field type"
  | _ => .error "invalid type: expected event object"

/-! ## Agent response and the streaming driver
(src/agent/response.rs, src/agent/subprocess_client.rs) -/

/-- Error types for agent operations, from `AgentError` in
src/agent/response.rs. -/
inductive AgentError
  | Network (msg : String)
  | Api (msg : String)
  | Timeout (secs : Nat)
  | Authentication
  | InvalidRequest (msg : String)
  | RateLimited (secs : Nat)
  | Internal (msg : String)
deriving Repr, DecidableEq

/-- Token usage information, from `TokenUsage` in src/agent/response.rs. -/
structure TokenUsage where
  prompt_tokens : Nat
  completion_tokens : Nat
  total_tokens : Nat
deriving Repr, DecidableEq

/-- Response from the agent, from `AgentResponse` in src/agent/response.rs. -/
structure AgentResponse where
  content : String
  done : Bool
  usage : Option TokenUsage
deriving Repr, DecidableEq

/-- One iteration of the stdout loop of
`PiSubprocessClient::execute_streaming` (src/agent/subprocess_client.rs
lines 124-176), restricted to its effect on the accumulator: an empty line
is skipped; a line that fails to parse is logged and skipped; of the parsed
events, only a `message_update` carrying a nested `text_delta` appends its
delta to the accumulator (in particular a `text_end` content is only
logged, never appended). The composite `serde_json::from_str` is the
`parse` parameter. -/
def processLine (parse : String → Except String PiJsonEvent)
    (accumulated_text : String) (line : String) : String :=
  if line = "" then accumulated_text
  else
    match parse line with
    | .ok (.MessageUpdate (some (.TextDelta _ delta)) _) => accumulated_text ++ delta
    | .ok _ => accumulated_text
    | .error _ => accumulated_text

/-- Data-level translation of `PiSubprocessClient::execute_streaming`
(src/agent/subprocess_client.rs lines 86-202) for a child whose stdout
yields `lines` and then EOF: fold the loop body over the lines, then check
the exit status; zero yields `AgentResponse` with the accumulator,
`done = true` and no usage; non-zero yields the `Api` error. -/
def PiSubprocessClient.execute_streaming (parse : String → Except String PiJsonEvent)
    (lines : List String) (exit_success : Bool) : Except AgentError AgentResponse :=
  let accumulated_text := lines.foldl (processLine parse) ""
  if exit_success then
    .ok { content := accumulated_text, done := true, usage := none }
  else
    .error (.Api "pi exited with non-zero status")

/-! ## Theorems -/

/-- C1: for every step configured with both a continuation condition and a
termination success pattern, and every reply matching both patterns, the
executor's verdict is Continue with the configured continuation action
(Retry, or Route to the configured target), never Success: the continuation
check runs before the success check. -/
theorem C1_continuation_precedence (step : Step) (c : ContinuationCondition)
    (t : TerminationCondition) (content : String)
    (hc : step.continuation = some c) (_ht : step.termination = some t)
    (hmc : c.pattern.matches content = true)
    (_hmt : t.success_pattern.matches content = true) :
    (c.action = .Retry → StepExecutor.classify step content = some (.Continue .Retry none)) ∧
    (∀ target_id, c.action = .Route → c.target = some target_id →
      StepExecutor.classify step content =
        some (.Continue (.Route target_id) (some target_id))) ∧
    (∀ output next_step,
      StepExecutor.classify step content ≠ some (.Success output next_step)) := by
  have hneeds : step.needs_continuation content = true := by
    unfold Step.needs_continuation
    rw [hc]
    exact hmc
  have hget : step.get_continuation_action = some (c.action, c.target) := by
    unfold Step.get_continuation_action
    rw [hc]
    rfl
  refine ⟨?_, ?_, ?_⟩
  · intro ha
    simp [StepExecutor.classify, hneeds, hget, ha]
  · intro target_id ha htgt
    simp [StepExecutor.classify, hneeds, hget, ha, htgt]
  · intro output next_step
    cases ha : c.action with
    | Retry => simp [StepExecutor.classify, hneeds, hget, ha]
    | Route =>
      cases htgt : c.target with
      | none => simp [StepExecutor.classify, hneeds, hget, ha, htgt]
      | some target_id => simp [StepExecutor.classify, hneeds, hget, ha, htgt]

/-- Concrete step used to witness C1: literal success pattern "DONE",
literal continuation pattern "RETRY" with the Retry action. -/
def c1Step : Step :=
  { id := "s"
    prompt_template := ""
    dependencies := []
    termination := some
      { success_pattern := .Simple "DONE", on_success := none, on_failure := none }
    continuation := some
      { pattern := .Simple "RETRY", action := .Retry, target := none }
    max_retries := 3
    timeout_secs := 300
    state := .pending }

/-- Witness for C1 at a reply containing both sentinels. -/
theorem C1_continuation_precedence_witness :
    StepExecutor.classify c1Step "DONE RETRY" = some (.Continue .Retry none) :=
  (C1_continuation_precedence c1Step
      { pattern := .Simple "RETRY", action := .Retry, target := none }
      { success_pattern := .Simple "DONE", on_success := none, on_failure := none }
      "DONE RETRY" rfl rfl (by decide) (by decide)).1 rfl

/-- C2: the engine's retry gate permits an execution only when its attempt
number is at most `max_retries + 1`; a scheduled retry whose
`retry_count = attempt - 1` strictly exceeds `max_retries` is not run and
is failed with the error `Exceeded retry limit of {max_retries}`; a `Pending`
step always runs with attempt 1 (so `max_retries = 0` allows exactly one
attempt, every rescheduled attempt being refused); and a Retry continuation
reschedules a running step with its attempt incremented, so attempts in a
linear retry chain count 1, 2, 3, …. -/
theorem C2_retry_accounting (max_retries : Nat) :
    (∀ state attempt, ExecutionEngine.retry_gate state max_retries = .run attempt →
      attempt ≤ max_retries + 1) ∧
    (∀ attempt, attempt - 1 > max_retries →
      ExecutionEngine.retry_gate (.retrying attempt) max_retries =
        .failExceeded ("Exceeded retry limit of " ++ toString max_retries) (attempt - 1)) ∧
    (ExecutionEngine.retry_gate .pending max_retries = .run 1) ∧
    (∀ attempt, 2 ≤ attempt →
      ExecutionEngine.retry_gate (.retrying attempt) 0 =
        .failExceeded "Exceeded retry limit of 0" (attempt - 1)) ∧
    (∀ started_at attempt,
      ExecutionEngine.retryContinuationState (.running started_at attempt) =
        .retrying (attempt + 1)) := by
  refine ⟨?_, ?_, ?_, ?_, ?_⟩
  · intro state attempt h
    cases state with
    | pending =>
      simp [ExecutionEngine.retry_gate] at h
      omega
    | retrying a =>
      simp [ExecutionEngine.retry_gate] at h
      split at h
      · exact absurd h (by simp)
      · rename_i hle
        cases h
        omega
    | running s a =>
      simp [ExecutionEngine.retry_gate] at h
      split at h
      · exact absurd h (by simp)
      · rename_i hle
        cases h
        omega
    | completed o a s c => simp [ExecutionEngine.retry_gate] at h
    | failed e a s f => simp [ExecutionEngine.retry_gate] at h
    | skipped r => simp [ExecutionEngine.retry_gate] at h
    | blocked r b => simp [ExecutionEngine.retry_gate] at h
  · intro attempt hgt
    simp [ExecutionEngine.retry_gate, hgt]
  · simp [ExecutionEngine.retry_gate]
  · intro attempt h2
    have hgt : attempt - 1 > 0 := by omega
    simp [ExecutionEngine.retry_gate, hgt]
    rfl
  · intro started_at attempt
    simp [ExecutionEngine.retryContinuationState]

/-- Witness for C2 at `max_retries = 3`: the gate refuses the fifth
attempt. -/
theorem C2_retry_accounting_witness :
    ExecutionEngine.retry_gate (.retrying 5) 3 =
      .failExceeded "Exceeded retry limit of 3" 4 :=
  (C2_retry_accounting 3).2.1 5 (by decide)

/-- C5: for a reply that matches neither the continuation pattern nor the
success pattern, the executor returns FailedWithRoute with error
"No termination pattern found" and the configured `on_failure` target when
one is set, and otherwise Continue with the Retry action; it never returns
a plain Failed for an unmatched reply. -/
theorem C5_unmatched_reply (step : Step) (content : String)
    (hnc : step.needs_continuation content = false)
    (hns : step.is_success content = false) :
    (∀ target, step.next_step_on_failure = some target →
      StepExecutor.classify step content =
        some (.FailedWithRoute "No termination pattern found" target)) ∧
    (step.next_step_on_failure = none →
      StepExecutor.classify step content = some (.Continue .Retry none)) ∧
    (∀ error, StepExecutor.classify step content ≠ some (.Failed error)) := by
  refine ⟨?_, ?_, ?_⟩
  · intro target htgt
    simp [StepExecutor.classify, hnc, classifyTail, hns, htgt]
  · intro htgt
    simp [StepExecutor.classify, hnc, classifyTail, hns, htgt]
  · intro error
    cases htgt : step.next_step_on_failure with
    | none => simp [StepExecutor.classify, hnc, classifyTail, hns, htgt]
    | some target => simp [StepExecutor.classify, hnc, classifyTail, hns, htgt]

/-- Concrete step used to witness C5: success pattern "DONE" and an
`on_failure` handler, no continuation. -/
def c5Step : Step :=
  { id := "risky"
    prompt_template := ""
    dependencies := []
    termination := some
      { success_pattern := .Simple "DONE", on_success := none,
        on_failure := some "fallback" }
    continuation := none
    max_retries := 3
    timeout_secs := 300
    state := .pending }

/-- Witness for C5 at an unmatched reply. -/
theorem C5_unmatched_reply_witness :
    StepExecutor.classify c5Step "task failed" =
      some (.FailedWithRoute "No termination pattern found" "fallback") :=
  (C5_unmatched_reply c5Step "task failed" (by decide) (by decide)).1 "fallback" rfl

/-- C10: `PipelineState::progress` is total: it returns 0 when
`total_steps = 0`, returns the unclamped ratio
`(completed_steps + failed_steps) / total_steps` otherwise, and can exceed
1 only when the recorded counts exceed `total_steps`. -/
theorem C10_progress_total (s : PipelineState) :
    (s.total_steps = 0 → s.progress = 0) ∧
    (s.total_steps ≠ 0 →
      s.progress =
        ((s.completed_steps + s.failed_steps : Nat) : Rat) / ((s.total_steps : Nat) : Rat)) ∧
    (1 < s.progress → s.total_steps < s.completed_steps + s.failed_steps) := by
  refine ⟨?_, ?_, ?_⟩
  · intro h0
    simp [PipelineState.progress, h0]
  · intro hne
    simp [PipelineState.progress, hne]
  · intro hgt
    by_cases h0 : s.total_steps = 0
    · simp [PipelineState.progress, h0] at hgt
      exact absurd hgt (by norm_num)
    · have hpos : (0 : Rat) < (s.total_steps : Nat) := by
        exact_mod_cast Nat.pos_of_ne_zero h0
      rw [show s.progress =
          ((s.completed_steps + s.failed_steps : Nat) : Rat) / ((s.total_steps : Nat) : Rat)
        from by simp [PipelineState.progress, h0]] at hgt
      rw [one_lt_div hpos] at hgt
      exact_mod_cast hgt

/-- Concrete pipeline state used to witness C10. -/
def c10State : PipelineState :=
  { status := .Running
    total_steps := 2
    completed_steps := 3
    failed_steps := 0
    running_steps := 0 }

/-- Witness for C10 at a state with counts exceeding the total. -/
theorem C10_progress_total_witness :
    c10State.progress =
      ((c10State.completed_steps + c10State.failed_steps : Nat) : Rat) /
        ((c10State.total_steps : Nat) : Rat) :=
  (C10_progress_total c10State).2.1 (by decide)

/-- Counterexample to C3 as stated: routing via `Continue(Route(target))`
into a Completed target with recorded `attempts = 2` resets it to
`Retrying { attempt = 2 }`, not to `Retrying { attempt = 3 }` as the claim
requires (the engine deliberately does not increment on this path). -/
theorem C3_routing_reset_counterexample :
    ExecutionEngine.resetTargetOnContinueRoute (.completed "out" 2 0 0) = .retrying 2 ∧
    ExecutionEngine.resetTargetOnContinueRoute (.completed "out" 2 0 0) ≠ .retrying 3 := by
  exact ⟨rfl, by decide⟩

/-- C3 amended: on the Success-with-`on_success` and FailedWithRoute
routing paths, a Completed or Failed target with recorded `attempts = k` is
reset to `Retrying { attempt = k + 1 }` and a non-terminal target is left
unchanged; on the `Continue(Route(target))` path the target is
unconditionally set to `Retrying` with attempt `k` (the prior count, not
incremented) when it was Completed or Failed, and attempt 1 otherwise. -/
theorem C3_routing_attempt_reset (st : StepState) :
    (∀ output attempts started completed_at,
      ExecutionEngine.resetTargetOnSuccessRoute
          (.completed output attempts started completed_at) = .retrying (attempts + 1)) ∧
    (∀ error attempts started failed_at,
      ExecutionEngine.resetTargetOnSuccessRoute
          (.failed error attempts started failed_at) = .retrying (attempts + 1)) ∧
    (st.isCompletedOrFailed = false → ExecutionEngine.resetTargetOnSuccessRoute st = st) ∧
    (∀ output attempts started completed_at,
      ExecutionEngine.resetTargetOnFailureRoute
          (.completed output attempts started completed_at) = .retrying (attempts + 1)) ∧
    (∀ error attempts started failed_at,
      ExecutionEngine.resetTargetOnFailureRoute
          (.failed error attempts started failed_at) = .retrying (attempts + 1)) ∧
    (st.isCompletedOrFailed = false → ExecutionEngine.resetTargetOnFailureRoute st = st) ∧
    (∀ output attempts started completed_at,
      ExecutionEngine.resetTargetOnContinueRoute
          (.completed output attempts started completed_at) = .retrying attempts) ∧
    (∀ error attempts started failed_at,
      ExecutionEngine.resetTargetOnContinueRoute
          (.failed error attempts started failed_at) = .retrying attempts) ∧
    (st.isCompletedOrFailed = false →
      ExecutionEngine.resetTargetOnContinueRoute st = .retrying 1) := by
  refine ⟨fun _ _ _ _ => rfl, fun _ _ _ _ => rfl, ?_,
    fun _ _ _ _ => rfl, fun _ _ _ _ => rfl, ?_,
    fun _ _ _ _ => rfl, fun _ _ _ _ => rfl, ?_⟩ <;>
    cases st <;>
      simp [StepState.isCompletedOrFailed, ExecutionEngine.resetTargetOnSuccessRoute,
        ExecutionEngine.resetTargetOnFailureRoute, ExecutionEngine.resetTargetOnContinueRoute]

/-- Witness for C3 at a non-terminal target on the Success routing path. -/
theorem C3_routing_attempt_reset_witness :
    ExecutionEngine.resetTargetOnSuccessRoute .pending = .pending :=
  (C3_routing_attempt_reset .pending).2.2.1 rfl

/-- Claim C4's selection rule, stated from the spec's words for comparison
with the source: the first step in topological order whose state is Pending
or Retrying and whose dependencies are all in the Completed or Failed
state. -/
def specC4Ready (p : Pipeline) (step_id : String) : Bool :=
  match p.step step_id with
  | some step =>
    (step.state.isPending || step.state.isRetrying)
      && step.dependencies.all (fun dep =>
        match p.step dep with
        | some dep_step => dep_step.state.isCompletedOrFailed
        | none => false)
  | none => false

/-- Claim C4's pick, stated from the spec's words: the first ready step in
topological order. -/
def specC4Pick (p : Pipeline) : Option String :=
  p.execution_order.find? (specC4Ready p)

/-- Pipeline state counters as produced by `PipelineState::new`
(src/core/state.rs), used by the concrete pipelines below. -/
def initialPipelineState : PipelineState :=
  { status := .Pending
    total_steps := 0
    completed_steps := 0
    failed_steps := 0
    running_steps := 0 }

/-- Concrete step for the C4 counterexample: a dependency-free step in the
Retrying state. -/
def c4StepR : Step :=
  { id := "r"
    prompt_template := ""
    dependencies := []
    termination := none
    continuation := none
    max_retries := 3
    timeout_secs := 300
    state := .retrying 1 }

/-- Concrete pipeline: a single Retrying step. -/
def c4P1 : Pipeline :=
  { name := "p1"
    steps := [c4StepR]
    state := initialPipelineState
    execution_order := ["r"] }

/-- Concrete step for the C4 counterexample: a step that has Failed. -/
def c4StepA : Step :=
  { id := "a"
    prompt_template := ""
    dependencies := []
    termination := none
    continuation := none
    max_retries := 3
    timeout_secs := 300
    state := .failed "boom" 1 0 0 }

/-- Concrete step for the C4 counterexample: a Pending step depending on
the Failed step "a". -/
def c4StepB : Step :=
  { id := "b"
    prompt_template := ""
    dependencies := ["a"]
    termination := none
    continuation := none
    max_retries := 3
    timeout_secs := 300
    state := .pending }

/-- Concrete pipeline: a Failed step followed by a Pending dependant. -/
def c4P2 : Pipeline :=
  { name := "p2"
    steps := [c4StepA, c4StepB]
    state := initialPipelineState
    execution_order := ["a", "b"] }

/-- Counterexample to C4 as stated: the spec's selection rule picks the
Retrying step "r" of `c4P1` and the failure handler "b" behind the Failed
dependency of `c4P2`, but `next_sequential` returns nothing in both cases
(it only considers Pending steps and only counts Completed dependencies). -/
theorem C4_sequential_counterexample :
    (ExecutionScheduler.next_sequential c4P1 = [] ∧ specC4Pick c4P1 = some "r") ∧
    (ExecutionScheduler.next_sequential c4P2 = [] ∧ specC4Pick c4P2 = some "b") :=
  ⟨⟨rfl, rfl⟩, ⟨rfl, rfl⟩⟩

/-- The readiness test actually applied by `next_sequential`
(src/execution/scheduler.rs lines 88-96): state is Pending and every
dependency is in the Completed-only set. -/
def seqReady (p : Pipeline) (step_id : String) : Bool :=
  match p.step step_id with
  | some step => step.state.isPending && step.dependencies_satisfied p.completedIds
  | none => false

/-- Characterisation of the `next_sequential` loop as a first-match
search. -/
theorem nextSequentialGo_eq_find (p : Pipeline) :
    ∀ order : List String,
      nextSequentialGo p order = ((order.find? (seqReady p)).elim [] (fun sid => [sid]))
  | [] => by simp [nextSequentialGo]
  | step_id :: rest => by
    unfold nextSequentialGo
    rw [List.find?_cons]
    cases hs : p.step step_id with
    | none => simp [seqReady, hs, nextSequentialGo_eq_find p rest]
    | some step =>
      by_cases hp : step.state.isPending
      · by_cases hd : step.dependencies_satisfied p.completedIds
        · simp [seqReady, hs, hp, hd]
        · simp [seqReady, hs, hp, hd, nextSequentialGo_eq_find p rest]
      · simp [seqReady, hs, hp, nextSequentialGo_eq_find p rest]

/-- C4 amended: when the explicit queue is empty, the Sequential strategy
returns at most one step id: the first step in topological order whose
state is Pending and whose dependencies are all in the Completed state
(Retrying steps and Failed dependencies are not considered). -/
theorem C4_sequential_scheduling (p : Pipeline) :
    (ExecutionScheduler.next_sequential p).length ≤ 1 ∧
    ExecutionScheduler.next_sequential p =
      ((p.execution_order.find? (seqReady p)).elim [] (fun sid => [sid])) ∧
    (∀ s : ExecutionScheduler, s.strategy = .Sequential → s.explicit_queue = [] →
      s.next_steps p = ExecutionScheduler.next_sequential p) := by
  have hchar := nextSequentialGo_eq_find p p.execution_order
  refine ⟨?_, hchar, ?_⟩
  · rw [show ExecutionScheduler.next_sequential p = nextSequentialGo p p.execution_order
      from rfl, hchar]
    cases p.execution_order.find? (seqReady p) <;> simp
  · intro s hstrat hqueue
    simp [ExecutionScheduler.next_steps, hqueue, hstrat]

/-- Witness for C4's amended claim on the concrete pipeline `c4P2` with a
fresh Sequential scheduler. -/
theorem C4_sequential_scheduling_witness :
    (ExecutionScheduler.new .Sequential).next_steps c4P2 =
      ExecutionScheduler.next_sequential c4P2 :=
  (C4_sequential_scheduling c4P2).2.2 (ExecutionScheduler.new .Sequential) rfl rfl

/-- Every id returned by the queue path names a Pending step whose
dependencies are all in the Completed set. -/
theorem mem_collectReadyGo (p : Pipeline) (sequential : Bool) :
    ∀ (queue : List String) (sid : String), sid ∈ collectReadyGo p sequential queue →
      ∃ step, p.step sid = some step ∧ step.state.isPending = true ∧
        step.dependencies_satisfied p.completedIds = true
  | [], sid, h => by simp [collectReadyGo] at h
  | step_id :: rest, sid, h => by
    unfold collectReadyGo at h
    split at h
    · rename_i step hs
      split at h
      · rename_i hcond
        have hsplit : step.state.isPending = true ∧
            step.dependencies_satisfied p.completedIds = true := by simpa using hcond
        split at h
        · have heq : sid = step_id := by simpa using h
          exact ⟨step, heq ▸ hs, hsplit.1, hsplit.2⟩
        · rcases List.mem_cons.mp h with heq | hmem
          · exact ⟨step, heq ▸ hs, hsplit.1, hsplit.2⟩
          · exact mem_collectReadyGo p sequential rest sid hmem
      · exact mem_collectReadyGo p sequential rest sid h
    · exact mem_collectReadyGo p sequential rest sid h

/-- C9: the explicit queue is append-only (`enqueue` pushes to the back and
no operation removes entries), so a non-empty queue stays non-empty and
`next_steps` then always takes the queue path, never the strategy fallback;
and the queue path returns only ids of Pending steps whose dependencies are
all Completed, so a step enqueued while Retrying is never returned through
the queue path. -/
theorem C9_queue_invariants (s : ExecutionScheduler) (id : String) (p : Pipeline) :
    ((s.enqueue id).explicit_queue = s.explicit_queue ++ [id]) ∧
    ((s.enqueue id).explicit_queue ≠ []) ∧
    (s.explicit_queue ≠ [] → s.next_steps p = s.collect_ready_from_queue p) ∧
    (∀ sid, sid ∈ s.collect_ready_from_queue p →
      ∃ step, p.step sid = some step ∧ step.state.isPending = true ∧
        step.dependencies_satisfied p.completedIds = true) ∧
    (∀ sid step attempt, p.step sid = some step → step.state = .retrying attempt →
      sid ∉ s.collect_ready_from_queue p) := by
  refine ⟨rfl, by simp [ExecutionScheduler.enqueue], ?_, ?_, ?_⟩
  · intro hne
    have : s.explicit_queue.isEmpty = false := by
      cases hq : s.explicit_queue with
      | nil => exact absurd hq hne
      | cons x xs => simp
    simp [ExecutionScheduler.next_steps, this]
  · intro sid h
    exact mem_collectReadyGo p (s.strategy = .Sequential) s.explicit_queue sid h
  · intro sid step attempt hstep hretrying hmem
    obtain ⟨step', hstep', hpending, _⟩ :=
      mem_collectReadyGo p (s.strategy = .Sequential) s.explicit_queue sid hmem
    rw [hstep] at hstep'
    cases hstep'
    rw [hretrying] at hpending
    simp [StepState.isPending] at hpending

/-- Concrete scheduler with a non-empty queue, used to witness C9. -/
def c9Scheduler : ExecutionScheduler :=
  { strategy := .Sequential, explicit_queue := ["r"] }

/-- Witness for C9: with step "r" of `c4P1` in the Retrying state sitting
in the queue, `next_steps` takes the queue path and "r" is not returned. -/
theorem C9_queue_invariants_witness :
    c9Scheduler.next_steps c4P1 = c9Scheduler.collect_ready_from_queue c4P1 ∧
    "r" ∉ c9Scheduler.collect_ready_from_queue c4P1 := by
  refine ⟨(C9_queue_invariants c9Scheduler "x" c4P1).2.2.1 (by decide), ?_⟩
  exact (C9_queue_invariants c9Scheduler "x" c4P1).2.2.2.2 "r" c4StepR 1 rfl rfl

/-- Concatenation of a list of strings, used to state the claim's
"concatenation in arrival order". -/
def specConcat : List String → String
  | [] => ""
  | s :: rest => s ++ specConcat rest

/-- The claim's notion of a contributing line, stated from the spec's
words: a non-empty line that parses to a `message_update` event carrying a
nested `text_delta` contributes that delta; every other line contributes
nothing. -/
def specDelta (parse : String → Except String PiJsonEvent) (line : String) :
    Option String :=
  if line = "" then none
  else
    match parse line with
    | .ok (.MessageUpdate (some (.TextDelta _ delta)) _) => some delta
    | _ => none

/-- The loop body changes the accumulator exactly by the line's
contribution. -/
theorem processLine_eq (parse : String → Except String PiJsonEvent)
    (accumulated_text line : String) :
    processLine parse accumulated_text line =
      accumulated_text ++ ((specDelta parse line).getD "") := by
  by_cases h0 : line = ""
  · simp [processLine, specDelta, h0]
  · cases hp : parse line with
    | error e => simp [processLine, specDelta, h0, hp]
    | ok ev =>
      cases ev <;> try simp [processLine, specDelta, h0, hp]
      rename_i a m
      cases a with
      | none => simp [processLine, specDelta, h0, hp]
      | some ame => cases ame <;> simp [processLine, specDelta, h0, hp]

/-- Folding the loop body over the lines appends exactly the concatenated
contributions. -/
theorem foldl_processLine (parse : String → Except String PiJsonEvent) :
    ∀ (lines : List String) (accumulated_text : String),
      lines.foldl (processLine parse) accumulated_text =
        accumulated_text ++ specConcat (lines.filterMap (specDelta parse))
  | [], accumulated_text => by simp [specConcat]
  | line :: rest, accumulated_text => by
    rw [List.foldl_cons, processLine_eq parse accumulated_text line, List.filterMap_cons]
    cases hd : specDelta parse line with
    | none =>
      simp only [Option.getD_none]
      rw [foldl_processLine parse rest]
      simp
    | some delta =>
      simp only [Option.getD_some]
      rw [foldl_processLine parse rest]
      simp [specConcat, String.append_assoc]

/-- C6: for a stream whose child exits with status zero, the driver returns
`AgentResponse` whose content is the concatenation, in arrival order, of
the delta strings of the successfully parsed `message_update` events that
carry a nested `text_delta` (a `text_end` content is never used), with
`done = true` and no usage; empty lines and unparsable lines contribute
nothing and never abort the stream. -/
theorem C6_driver_accumulation (parse : String → Except String PiJsonEvent)
    (lines : List String) :
    PiSubprocessClient.execute_streaming parse lines true =
      .ok { content := specConcat (lines.filterMap (specDelta parse)),
            done := true, usage := none } := by
  unfold PiSubprocessClient.execute_streaming
  rw [foldl_processLine parse lines ""]
  simp

/-- A `tool_execution_start` object with camelCase keys, as the upstream
agent emits it. -/
def c7CamelJson : Json :=
  .obj [("type", .str "tool_execution_start"), ("toolCallId", .str "call_1"),
    ("toolName", .str "bash"), ("args", .null)]

/-- The same object spelled with snake_case keys. -/
def c7SnakeJson : Json :=
  .obj [("type", .str "tool_execution_start"), ("tool_call_id", .str "call_1"),
    ("tool_name", .str "bash"), ("args", .null)]

/-- The same object carrying both spellings of each key. -/
def c7BothJson : Json :=
  .obj [("type", .str "tool_execution_start"), ("tool_call_id", .str "call_1"),
    ("toolCallId", .str "call_1"), ("tool_name", .str "bash"),
    ("toolName", .str "bash"), ("args", .null)]

/-- Counterexample to C7 as stated: the camelCase spelling parses, but the
snake_case spelling of the same `tool_execution_start` object is rejected
with a missing-field error, because the serde attribute
`rename_all = "camelCase"` renames keys instead of aliasing them. -/
theorem C7_dual_key_counterexample :
    parsePiJsonEvent c7CamelJson = .ok (.ToolExecutionStart "call_1" "bash" .null) ∧
    parsePiJsonEvent c7SnakeJson = .error "missing field toolCallId" :=
  ⟨rfl, rfl⟩

/-- C7 amended: for multi-word fields the deserializer accepts only the
camelCase spelling of the key; the snake_case spelling is not accepted (it
is ignored as an unknown key, so an object carrying both spellings still
parses through the camelCase one). -/
theorem C7_camel_case_keys_only :
    parsePiJsonEvent c7CamelJson = .ok (.ToolExecutionStart "call_1" "bash" .null) ∧
    parsePiJsonEvent c7SnakeJson = .error "missing field toolCallId" ∧
    parsePiJsonEvent c7BothJson = .ok (.ToolExecutionStart "call_1" "bash" .null) :=
  ⟨rfl, rfl, rfl⟩

/-- A one-line JSON object whose "type" is not a recognised event type. -/
def c8UnknownJson : Json := .obj [("type", .str "totally_new_event")]

/-- Counterexample to C8 as stated: deserializing an object with an
unrecognised "type" does produce a parse error (`PiJsonEvent` has no
catch-all variant); the error is only tolerated later, by the driver. -/
theorem C8_unknown_type_counterexample :
    parsePiJsonEvent c8UnknownJson = .error "unknown variant totally_new_event" :=
  rfl

/-- A recognised unit event with extra unknown fields. -/
def c8AgentStartExtra : Json :=
  .obj [("type", .str "agent_start"), ("mystery", .num 7), ("extra", .str "x")]

/-- A recognised struct event with an extra unknown field. -/
def c8SessionExtra : Json :=
  .obj [("type", .str "session"), ("version", .num 3), ("id", .str "abc"),
    ("timestamp", .str "t0"), ("cwd", .str "/w"), ("unknownField", .bool true)]

/-- C8 amended: an unrecognised "type" yields a deserialization error, but
unknown fields on recognised events are ignored, and in the streaming
driver a line whose parse fails never aborts the run: the run's result is
the same as if the line were absent. -/
theorem C8_unknown_event_tolerance :
    parsePiJsonEvent c8UnknownJson = .error "unknown variant totally_new_event" ∧
    parsePiJsonEvent c8AgentStartExtra = .ok .AgentStart ∧
    parsePiJsonEvent c8SessionExtra = .ok (.Session 3 "abc" "t0" "/w") ∧
    (∀ (parse : String → Except String PiJsonEvent) (pre post : List String)
        (line err : String) (exit_success : Bool),
      parse line = .error err →
      PiSubprocessClient.execute_streaming parse (pre ++ line :: post) exit_success =
        PiSubprocessClient.execute_streaming parse (pre ++ post) exit_success) := by
  refine ⟨rfl, rfl, rfl, ?_⟩
  intro parse pre post line err exit_success hline
  have hskip : ∀ accumulated_text,
      processLine parse accumulated_text line = accumulated_text := by
    intro accumulated_text
    by_cases h0 : line = ""
    · simp [processLine, h0]
    · simp [processLine, h0, hline]
  unfold PiSubprocessClient.execute_streaming
  rw [List.foldl_append, List.foldl_append, List.foldl_cons, hskip]

/-- Parse function used to witness C8's driver-skip property: it rejects
every line. -/
def c8RejectAll : String → Except String PiJsonEvent := fun _ => .error "bad line"

/-- Witness for C8's amended claim: dropping a rejected line does not
change the driver's result. -/
theorem C8_unknown_event_tolerance_witness :
    PiSubprocessClient.execute_streaming c8RejectAll (["a"] ++ "bad" :: ["b"]) true =
      PiSubprocessClient.execute_streaming c8RejectAll (["a"] ++ ["b"]) true :=
  C8_unknown_event_tolerance.2.2.2 c8RejectAll ["a"] ["b"] "bad" "bad line" true rfl

end PiPipeline
